import Mathlib

/-!
# A shallow embedding of `Node.cpp` from the `nodeeditor` repository

The C++ source implements the `Node` class of a visual node-graph editor:
identity (`_uid`), the binding to a user-supplied `NodeDataModel`, per-side
port bookkeeping (`NodeState`: one set of connections per port), and
synchronization with the on-screen `NodeGraphicsObject`.

We embed the state as plain Lean structures and the operations as pure
functions.  GUI side effects (repaints, geometry recalculation, data pushed
into the model or into connections, signal emissions) are recorded as an
explicit event trace.  Operations that dereference the (nullable) graphics
pointer return `Option`.
-/

namespace QtNodes

/-- Port sides of a node (`PortType::In` / `PortType::Out`).  The third C++
enumerator `PortType::None` is represented by `Option.none` where the
reaction bookkeeping needs it. -/
inductive PortType where
  | inPort
  | outPort
deriving DecidableEq, Repr

/-- `NodeDataType`: an `{id, name}` pair of strings. -/
structure NodeDataType where
  typeId : String
  typeName : String
deriving DecidableEq, Repr

instance : Inhabited NodeDataType := ⟨⟨"", ""⟩⟩

/-- Connections are identified by an id (standing for the `Connection*`
pointer / its `QUuid`). -/
abbrev ConnId := Nat

/-- Modelled from the spec: the endpoint bookkeeping of `Connection`
(not under `src/`): a possibly-null node pointer and a stored port index for
each side.  Node pointers are represented by node ids. -/
structure Connection where
  inNode : Option Nat
  outNode : Option Nat
  inPortIndex : Int
  outPortIndex : Int
deriving DecidableEq, Repr

/-- `Connection::getNode(portType)`. -/
def Connection.getNode (c : Connection) : PortType → Option Nat
  | .inPort => c.inNode
  | .outPort => c.outNode

/-- `Connection::getPortIndex(portType)`. -/
def Connection.getPortIndex (c : Connection) : PortType → Int
  | .inPort => c.inPortIndex
  | .outPort => c.outPortIndex

/-- Modelled from the spec: `Connection::setNodeToPort(node, portType, portIndex)`
(not under `src/`): stores the node pointer and the port index on side
`portType`. -/
def Connection.setNodeToPort (c : Connection) (node : Nat) (pt : PortType)
    (idx : Int) : Connection :=
  match pt with
  | .inPort => { c with inNode := some node, inPortIndex := idx }
  | .outPort => { c with outNode := some node, outPortIndex := idx }

/-- `NodeState::ReactToConnectionState`. -/
inductive ReactionState where
  | REACTING
  | NOT_REACTING
deriving DecidableEq, Repr

/-- Modelled from the spec: `NodeState` (not under `src/`): per-side vectors of
connection sets (a set is the value collection of the `unordered_map`,
modelled as a list of connection ids) plus the reaction fields written by
`setReaction`. -/
structure NodeState where
  inEntries : List (List ConnId)
  outEntries : List (List ConnId)
  reaction : ReactionState
  reactingPortType : Option PortType
  reactingDataType : NodeDataType
deriving Repr

/-- `NodeState::getEntries(portType)`. -/
def NodeState.getEntries (s : NodeState) : PortType → List (List ConnId)
  | .inPort => s.inEntries
  | .outPort => s.outEntries

/-- Writing back through the reference returned by `getEntries`. -/
def NodeState.setEntries (s : NodeState) (pt : PortType)
    (es : List (List ConnId)) : NodeState :=
  match pt with
  | .inPort => { s with inEntries := es }
  | .outPort => { s with outEntries := es }

/-- Modelled from the spec: `NodeState::connections(portType, portIndex)`
(not under `src/`): the connection set stored at that port. -/
def NodeState.connections (s : NodeState) (pt : PortType) (idx : Nat) :
    List ConnId :=
  (s.getEntries pt).getD idx []

/-- Modelled from the spec: `NodeState::setReaction(reaction, portType, dataType)`
(not under `src/`): stores the three reaction fields.  The C++ defaults
(`PortType::None`, `NodeDataType()`) are passed explicitly by callers. -/
def NodeState.setReaction (s : NodeState) (r : ReactionState)
    (pt : Option PortType) (dt : NodeDataType) : NodeState :=
  { s with reaction := r, reactingPortType := pt, reactingDataType := dt }

/-- A 2D point (`QPointF`); coordinates modelled as integers, since the code
only stores and reloads them (no arithmetic). -/
structure Point where
  x : Int
  y : Int
deriving DecidableEq, Repr

/-- The part of `NodeGeometry` this file writes: the dragging position set by
`reactToPossibleConnection`.  Size recalculation is recorded as an event. -/
structure NodeGeometry where
  draggingPos : Point
deriving DecidableEq, Repr

/-- The part of `NodeGraphicsObject` this file reads and writes: the scene
position and the inverse of the scene transform (`sceneTransform().inverted().map`
is modelled as one function). -/
structure NodeGraphicsObject where
  pos : Point
  invSceneTransform : Point → Point

/-- A JSON value (`QJsonValue` / `QJsonObject`). -/
inductive JValue where
  | null
  | num (v : Int)
  | str (s : String)
  | obj (fields : List (String × JValue))

/-- `QJsonObject::operator[]` — `Undefined` (here `null`) when the key is
absent or the value is not an object. -/
def jLookup (j : JValue) (key : String) : JValue :=
  match j with
  | .obj fields => (fields.lookup key).getD .null
  | _ => .null

/-- `QJsonValue::toDouble()` — 0 for non-numbers. -/
def jToDouble (j : JValue) : Int :=
  match j with
  | .num v => v
  | _ => 0

/-- `QJsonObject::keys()` (insertion order kept; our object model is an
association list). -/
def jKeys (j : JValue) : List String :=
  match j with
  | .obj fields => fields.map Prod.fst
  | _ => []

/-- Modelled from the spec: the `QUuid` JSON codec.  `QUuid::toString` followed
by `QUuid(QString)` is an exact round trip, so the uuid (a `Nat`) is encoded as
a JSON number and decoded back. -/
def uuidToJson (u : Nat) : JValue := .num (Int.ofNat u)

/-- Decoding half of the `QUuid` codec. -/
def uuidOfJson (j : JValue) : Nat := (jToDouble j).toNat

/-- Modelled from the spec: the `NodeDataModel` interface as used by
`Node.cpp`: port counts, output data (data values modelled as `Nat`), and the
JSON produced by the model's `save()`. -/
structure NodeDataModel where
  nPorts : PortType → Nat
  outData : Nat → Nat
  saveJson : JValue

/-- The `Node` fields written by `Node.cpp`: `_uid`, `_nodeState`,
`_nodeGeometry`, and the nullable `_nodeGraphicsObject`. -/
structure Node where
  uid : Nat
  state : NodeState
  geometry : NodeGeometry
  graphics : Option NodeGraphicsObject

/-- Observable side effects of the operations, in program order. -/
inductive Event where
  | setInData (d : Nat) (port : Nat)
  | setGeometryChanged
  | recalculateSize
  | graphicsUpdate
  | moveConnections
  | propagateToConn (c : ConnId) (d : Nat)
  | connectionRemoved (c : ConnId)
deriving DecidableEq, Repr

/-- The node together with the heap of connections it manipulates through
`Connection*` pointers, and the event trace. -/
structure World where
  node : Node
  conns : ConnId → Connection
  events : List Event

/-- `Node::Node(dataModel)`: fresh uuid, state and geometry built from the
model, graphics pointer null.  (Modelled from the spec: the `NodeState`
constructor sizes each entries vector by `nPorts`.)  The initial
`recalculateSize` is a geometry-only call, recorded as an event by
`mkWorld`. -/
def Node.mkNode (uid : Nat) (dm : NodeDataModel) : Node :=
  { uid := uid
  , state :=
      { inEntries := List.replicate (dm.nPorts .inPort) []
      , outEntries := List.replicate (dm.nPorts .outPort) []
      , reaction := .NOT_REACTING
      , reactingPortType := none
      , reactingDataType := default }
  , geometry := { draggingPos := ⟨0, 0⟩ }
  , graphics := none }

/-- A world holding a freshly constructed node. -/
def mkWorld (uid : Nat) (dm : NodeDataModel) (conns : ConnId → Connection) :
    World :=
  { node := Node.mkNode uid dm, conns := conns
  , events := [.recalculateSize] }

/-- The event trace of `Node::updateGraphics`. -/
def updateGraphicsEvents : List Event :=
  [.setGeometryChanged, .recalculateSize, .graphicsUpdate, .moveConnections]

/-- `Node::updateGraphics`: dereferences the graphics pointer, then marks the
geometry changed, recalculates the size, repaints, and moves the attached
connections. -/
def updateGraphics (w : World) : Option World :=
  match w.node.graphics with
  | none => none
  | some _ => some { w with events := w.events ++ updateGraphicsEvents }

/-- `Node::propagateData(nodeData, inPortIndex)`: forwards the data to the
model via `setInData` and then `updateGraphics`. -/
def propagateData (w : World) (d : Nat) (inPortIndex : Nat) : Option World :=
  updateGraphics { w with events := w.events ++ [.setInData d inPortIndex] }

/-- `Node::onDataUpdated(index)`: fetches `outData(index)` and propagates it
into every connection registered at `(PortType::Out, index)`. -/
def onDataUpdated (w : World) (dm : NodeDataModel) (index : Nat) : World :=
  let nodeData := dm.outData index
  let connections := w.node.state.connections .outPort index
  { w with
    events := w.events ++ connections.map (fun c => .propagateToConn c nodeData) }

/-- One iteration of the shifting loops of `insertEntry` / `eraseEntry`:
`getNode`, the null check, and `setNodeToPort` at the old index plus
`delta`. -/
def applyShift (delta : Int) (pt : PortType) (cid : ConnId)
    (cs : ConnId → Connection) : ConnId → Connection :=
  match (cs cid).getNode pt with
  | none => cs
  | some node =>
      Function.update cs cid
        ((cs cid).setNodeToPort node pt ((cs cid).getPortIndex pt + delta))

/-- The whole shifting loop, over the listed connection ids in order. -/
def shiftConns (delta : Int) (pt : PortType) (cids : List ConnId)
    (cs : ConnId → Connection) : ConnId → Connection :=
  cids.foldl (fun acc cid => applyShift delta pt cid acc) cs

/-- `Node::insertEntry(portType, index)`: inserts an empty connection set at
`index`, then bumps the stored port index of every connection found in the
entries after the insertion point by one. -/
def insertEntry (w : World) (pt : PortType) (index : Nat) : World :=
  let entries := (w.node.state.getEntries pt).insertIdx index []
  let affected := (entries.drop (index + 1)).flatten
  { w with
    node := { w.node with state := w.node.state.setEntries pt entries }
  , conns := shiftConns 1 pt affected w.conns }

/-- `Node::eraseEntry(portType, index)`: erases the connection set at `index`,
then lowers the stored port index of every connection found at or after the
erased position by one. -/
def eraseEntry (w : World) (pt : PortType) (index : Nat) : World :=
  let entries := (w.node.state.getEntries pt).eraseIdx index
  let affected := (entries.drop index).flatten
  { w with
    node := { w.node with state := w.node.state.setEntries pt entries }
  , conns := shiftConns (-1) pt affected w.conns }

/-- `Node::onPortAdded(portType, index)`: `insertEntry` then
`updateGraphics`. -/
def onPortAdded (w : World) (pt : PortType) (index : Nat) : Option World :=
  updateGraphics (insertEntry w pt index)

/-- `Node::onPortMoved(portType, oldIndex, newIndex)`: copies
`entries[oldIndex]` into a local that is never used again, then
`eraseEntry(oldIndex)`, `insertEntry(newIndex)`, `updateGraphics`.  The dead
local copy has no effect on the state, so it is not represented. -/
def onPortMoved (w : World) (pt : PortType) (oldIndex newIndex : Nat) :
    Option World :=
  updateGraphics (insertEntry (eraseEntry w pt oldIndex) pt newIndex)

/-- `Node::onPortRemoved(portType, index)`: loops `i` from
`nPorts(portType)` (the model's already-shrunk count) up to
`entries.size() - 1`, each iteration emitting `connectionRemoved` for every
connection currently in `entries[index]`; then `eraseEntry(index)` and
`updateGraphics`.  Signal receivers are external, so the entries do not change
between iterations here. -/
def onPortRemoved (w : World) (dm : NodeDataModel) (pt : PortType)
    (index : Nat) : Option World :=
  let entries := w.node.state.getEntries pt
  let iterations := entries.length - dm.nPorts pt
  let emitted :=
    (List.replicate iterations (entries.getD index [])).flatten.map
      Event.connectionRemoved
  updateGraphics (eraseEntry { w with events := w.events ++ emitted } pt index)

/-- `Node::save()`: a JSON object with keys `"id"`, `"model"` and
`"position"` (the latter holding `"x"` and `"y"` from the graphics object's
position).  Dereferences the graphics pointer. -/
def save (w : World) (dm : NodeDataModel) : Option JValue :=
  match w.node.graphics with
  | none => none
  | some g =>
      some (JValue.obj
        [("id", uuidToJson w.node.uid)
        , ("model", dm.saveJson)
        , ("position", JValue.obj
            [("x", JValue.num g.pos.x), ("y", JValue.num g.pos.y)])])

/-- `Node::restore(json)`: reads the uuid back into `_uid`, moves the graphics
object to the stored position, and hands `json["model"]` to the data model
(an external effect with no node-state footprint here).  Dereferences the
graphics pointer. -/
def restore (w : World) (j : JValue) : Option World :=
  match w.node.graphics with
  | none => none
  | some g =>
      let positionJson := jLookup j "position"
      let point : Point :=
        ⟨jToDouble (jLookup positionJson "x"), jToDouble (jLookup positionJson "y")⟩
      some { w with
        node := { w.node with
          uid := uuidOfJson (jLookup j "id")
        , graphics := some { g with pos := point } } }

/-- `Node::id()`. -/
def Node.nodeId (n : Node) : Nat := n.uid

/-- `Node::reactToPossibleConnection(reactingPortType, reactingDataType,
scenePoint)`: maps the scene point through the inverse scene transform into
the dragging position, repaints, and sets the reaction state to `REACTING`
with the given port type and data type. -/
def reactToPossibleConnection (w : World) (reactingPortType : PortType)
    (reactingDataType : NodeDataType) (scenePoint : Point) : Option World :=
  match w.node.graphics with
  | none => none
  | some g =>
      let p := g.invSceneTransform scenePoint
      some { w with
        node := { w.node with
          geometry := { w.node.geometry with draggingPos := p }
        , state := w.node.state.setReaction .REACTING
            (some reactingPortType) reactingDataType }
      , events := w.events ++ [.graphicsUpdate] }

/-- `Node::resetReactionToConnection()`: `setReaction(NOT_REACTING)` (with the
C++ default arguments `PortType::None` and a default `NodeDataType`), then a
repaint. -/
def resetReactionToConnection (w : World) : Option World :=
  match w.node.graphics with
  | none => none
  | some _ =>
      some { w with
        node := { w.node with
          state := w.node.state.setReaction .NOT_REACTING none default }
      , events := w.events ++ [.graphicsUpdate] }

/-- `Node::setGraphicsObject(graphics)`: stores the pointer and recalculates
the geometry. -/
def setGraphicsObject (w : World) (g : NodeGraphicsObject) : World :=
  { w with
    node := { w.node with graphics := some g }
  , events := w.events ++ [.recalculateSize] }

/-! ## Concrete sample data (used by counterexamples and witnesses) -/

/-- A concrete graphics object whose inverse scene transform is the
identity. -/
def gObj : NodeGraphicsObject := { pos := ⟨2, 3⟩, invSceneTransform := fun p => p }

/-- A concrete connection heap: connections 3 and 4 attach to node 1 on the
input side at indices 0 and 1; everything else is detached. -/
def sampleConns : ConnId → Connection := fun c =>
  if c = 3 then ⟨some 1, none, 0, -1⟩
  else if c = 4 then ⟨some 1, none, 1, -1⟩
  else ⟨none, none, -1, -1⟩

/-- A concrete data model: two input ports, one output port. -/
def sampleModel : NodeDataModel :=
  { nPorts := fun p => match p with | .inPort => 2 | .outPort => 1
  , outData := fun i => i + 10
  , saveJson := JValue.obj [] }

/-- A concrete data model whose input-port count has already shrunk to 1
(one fewer than `sampleWorld` holds entries for). -/
def shrunkModel : NodeDataModel :=
  { nPorts := fun p => match p with | .inPort => 1 | .outPort => 1
  , outData := fun i => i
  , saveJson := JValue.obj [] }

/-- A concrete world: node 5 with graphics set, connection 3 at input port 0
and output port 0, connection 4 at input port 1. -/
def sampleWorld : World :=
  { node :=
      { uid := 5
      , state :=
          { inEntries := [[3], [4]]
          , outEntries := [[3]]
          , reaction := .NOT_REACTING
          , reactingPortType := none
          , reactingDataType := default }
      , geometry := { draggingPos := ⟨0, 0⟩ }
      , graphics := some gObj }
  , conns := sampleConns
  , events := [] }

/-- Like `sampleWorld` but with a single connection, 7, registered at input
port 0 of a two-input-port node — the input to move with `onPortMoved`. -/
def movedWorld : World :=
  { node :=
      { uid := 5
      , state :=
          { inEntries := [[7], []]
          , outEntries := []
          , reaction := .NOT_REACTING
          , reactingPortType := none
          , reactingDataType := default }
      , geometry := { draggingPos := ⟨0, 0⟩ }
      , graphics := some gObj }
  , conns := fun c => if c = 7 then ⟨some 1, none, 0, -1⟩ else ⟨none, none, -1, -1⟩
  , events := [] }

/-! ## Helper lemmas about lists -/

theorem drop_insertIdx_succ {α : Type} :
    ∀ (i : Nat) (l : List α) (a : α), i ≤ l.length →
      (l.insertIdx i a).drop (i + 1) = l.drop i := by
  intro i
  induction i with
  | zero => intro l a _; cases l <;> simp [List.insertIdx]
  | succ i ih =>
      intro l a h
      cases l with
      | nil => simp at h
      | cons x xs =>
          simp only [List.insertIdx_succ_cons, List.drop_succ_cons]
          exact ih xs a (by simpa using h)

theorem drop_eraseIdx {α : Type} :
    ∀ (i : Nat) (l : List α), (l.eraseIdx i).drop i = l.drop (i + 1) := by
  intro i
  induction i with
  | zero => intro l; cases l <;> simp [List.eraseIdx]
  | succ i ih =>
      intro l
      cases l with
      | nil => simp [List.eraseIdx]
      | cons x xs => simpa [List.eraseIdx] using ih xs

theorem getD_insertIdx_lt {α : Type} :
    ∀ (i : Nat) (l : List α) (j : Nat) (a d : α), j < i →
      (l.insertIdx i a).getD j d = l.getD j d := by
  intro i
  induction i with
  | zero => intro l j a d h; omega
  | succ i ih =>
      intro l j a d h
      cases l with
      | nil => simp [List.insertIdx_succ_nil]
      | cons x xs =>
          cases j with
          | zero => simp [List.insertIdx_succ_cons]
          | succ j => simpa [List.insertIdx_succ_cons] using ih xs j a d (by omega)

theorem getD_insertIdx_self {α : Type} :
    ∀ (i : Nat) (l : List α) (a d : α), i ≤ l.length →
      (l.insertIdx i a).getD i d = a := by
  intro i
  induction i with
  | zero => intro l a d _; simp [List.insertIdx_zero]
  | succ i ih =>
      intro l a d h
      cases l with
      | nil => simp at h
      | cons x xs => simpa [List.insertIdx_succ_cons] using ih xs a d (by simpa using h)

theorem getD_insertIdx_succ {α : Type} :
    ∀ (i : Nat) (l : List α) (j : Nat) (a d : α), i ≤ j → i ≤ l.length →
      (l.insertIdx i a).getD (j + 1) d = l.getD j d := by
  intro i
  induction i with
  | zero => intro l j a d _ _; simp [List.insertIdx_zero]
  | succ i ih =>
      intro l j a d hij hlen
      cases l with
      | nil => simp at hlen
      | cons x xs =>
          cases j with
          | zero => omega
          | succ j =>
              simpa [List.insertIdx_succ_cons] using
                ih xs j a d (by omega) (by simpa using hlen)

theorem getD_eraseIdx_lt {α : Type} :
    ∀ (i : Nat) (l : List α) (j : Nat) (d : α), j < i →
      (l.eraseIdx i).getD j d = l.getD j d := by
  intro i
  induction i with
  | zero => intro l j d h; omega
  | succ i ih =>
      intro l j d h
      cases l with
      | nil => rfl
      | cons x xs =>
          cases j with
          | zero => simp [List.eraseIdx]
          | succ j => simpa [List.eraseIdx] using ih xs j d (by omega)

theorem getD_eraseIdx_ge {α : Type} :
    ∀ (i : Nat) (l : List α) (j : Nat) (d : α), i ≤ j →
      (l.eraseIdx i).getD j d = l.getD (j + 1) d := by
  intro i
  induction i with
  | zero =>
      intro l j d _
      cases l with
      | nil => rfl
      | cons x xs => simp [List.eraseIdx]
  | succ i ih =>
      intro l j d hij
      cases l with
      | nil => rfl
      | cons x xs =>
          cases j with
          | zero => omega
          | succ j => simpa [List.eraseIdx] using ih xs j d (by omega)

/-! ## Helper lemmas about the port-index shifting loops -/

theorem getEntries_setEntries (s : NodeState) (pt : PortType)
    (es : List (List ConnId)) : (s.setEntries pt es).getEntries pt = es := by
  cases pt <;> rfl

theorem setNodeToPort_getNode (c : Connection) (n : Nat) (pt : PortType)
    (i : Int) : (c.setNodeToPort n pt i).getNode pt = some n := by
  cases pt <;> rfl

theorem setNodeToPort_getPortIndex (c : Connection) (n : Nat) (pt : PortType)
    (i : Int) : (c.setNodeToPort n pt i).getPortIndex pt = i := by
  cases pt <;> rfl

theorem setNodeToPort_setNodeToPort (c : Connection) (n n' : Nat)
    (pt : PortType) (i i' : Int) :
    (c.setNodeToPort n pt i).setNodeToPort n' pt i' = c.setNodeToPort n' pt i' := by
  cases pt <;> rfl

theorem setNodeToPort_self (c : Connection) (n : Nat) (pt : PortType)
    (hn : c.getNode pt = some n) :
    c.setNodeToPort n pt (c.getPortIndex pt) = c := by
  cases pt <;> cases c <;>
    simp_all [Connection.setNodeToPort, Connection.getNode, Connection.getPortIndex]

theorem applyShift_of_getNode_none (delta : Int) (pt : PortType) (cid : ConnId)
    (cs : ConnId → Connection) (h : (cs cid).getNode pt = none) :
    applyShift delta pt cid cs = cs := by
  simp [applyShift, h]

theorem applyShift_of_getNode_some (delta : Int) (pt : PortType) (cid : ConnId)
    (cs : ConnId → Connection) (n : Nat) (h : (cs cid).getNode pt = some n) :
    applyShift delta pt cid cs =
      Function.update cs cid
        ((cs cid).setNodeToPort n pt ((cs cid).getPortIndex pt + delta)) := by
  simp [applyShift, h]

theorem applyShift_apply_ne (delta : Int) (pt : PortType) (cid x : ConnId)
    (cs : ConnId → Connection) (hx : x ≠ cid) :
    applyShift delta pt cid cs x = cs x := by
  rcases h : (cs cid).getNode pt with _ | n
  · rw [applyShift_of_getNode_none delta pt cid cs h]
  · rw [applyShift_of_getNode_some delta pt cid cs n h]
    exact Function.update_noteq hx _ cs

theorem shiftConns_cons (delta : Int) (pt : PortType) (x : ConnId)
    (xs : List ConnId) (cs : ConnId → Connection) :
    shiftConns delta pt (x :: xs) cs =
      shiftConns delta pt xs (applyShift delta pt x cs) := rfl

theorem shiftConns_apply_not_mem (delta : Int) (pt : PortType) :
    ∀ (cids : List ConnId) (cs : ConnId → Connection) (cid : ConnId),
      cid ∉ cids → shiftConns delta pt cids cs cid = cs cid := by
  intro cids
  induction cids with
  | nil => intro cs cid _; rfl
  | cons x xs ih =>
      intro cs cid h
      have h1 : cid ≠ x := fun he => h (by simp [he])
      have h2 : cid ∉ xs := fun he => h (by simp [he])
      rw [shiftConns_cons, ih _ _ h2, applyShift_apply_ne delta pt x cid cs h1]

theorem shiftConns_apply_count_one (delta : Int) (pt : PortType) :
    ∀ (cids : List ConnId) (cs : ConnId → Connection) (cid : ConnId) (n : Nat),
      cids.count cid = 1 → (cs cid).getNode pt = some n →
      shiftConns delta pt cids cs cid =
        (cs cid).setNodeToPort n pt ((cs cid).getPortIndex pt + delta) := by
  intro cids
  induction cids with
  | nil => intro cs cid n hc _; simp at hc
  | cons x xs ih =>
      intro cs cid n hc hn
      rw [shiftConns_cons]
      by_cases hx : cid = x
      · subst hx
        have h0 : cid ∉ xs := by
          rw [← List.count_eq_zero]
          simp [List.count_cons] at hc
          omega
        rw [shiftConns_apply_not_mem delta pt xs _ cid h0,
            applyShift_of_getNode_some delta pt cid cs n hn,
            Function.update_same]
      · have hc' : xs.count cid = 1 := by
          simp [List.count_cons, hx] at hc
          exact hc
        have hne : applyShift delta pt x cs cid = cs cid :=
          applyShift_apply_ne delta pt x cid cs hx
        rw [ih _ _ _ hc' (by rw [hne]; exact hn), hne]

theorem applyShift_applyShift_same (d d' : Int) (pt : PortType) (x : ConnId)
    (cs : ConnId → Connection) (n : Nat) (h : (cs x).getNode pt = some n) :
    applyShift d pt x (applyShift d' pt x cs) =
      Function.update cs x
        ((cs x).setNodeToPort n pt ((cs x).getPortIndex pt + (d' + d))) := by
  rw [applyShift_of_getNode_some d' pt x cs n h]
  have hx : ((Function.update cs x
      ((cs x).setNodeToPort n pt ((cs x).getPortIndex pt + d'))) x).getNode pt
      = some n := by
    rw [Function.update_same]; exact setNodeToPort_getNode ..
  rw [applyShift_of_getNode_some d pt x _ n hx, Function.update_same,
      Function.update_idem, setNodeToPort_getPortIndex,
      setNodeToPort_setNodeToPort, add_assoc]

theorem applyShift_comm (d d' : Int) (pt : PortType) (x y : ConnId)
    (cs : ConnId → Connection) :
    applyShift d pt x (applyShift d' pt y cs) =
      applyShift d' pt y (applyShift d pt x cs) := by
  by_cases hxy : x = y
  · subst hxy
    rcases h : (cs x).getNode pt with _ | n
    · rw [applyShift_of_getNode_none d' pt x cs h,
          applyShift_of_getNode_none d pt x cs h,
          applyShift_of_getNode_none d' pt x cs h]
    · rw [applyShift_applyShift_same d d' pt x cs n h,
          applyShift_applyShift_same d' d pt x cs n h, add_comm d d']
  · rcases hx : (cs x).getNode pt with _ | n
    · rcases hy : (cs y).getNode pt with _ | m
      · rw [applyShift_of_getNode_none d' pt y cs hy,
            applyShift_of_getNode_none d pt x cs hx,
            applyShift_of_getNode_none d' pt y cs hy]
      · rw [applyShift_of_getNode_some d' pt y cs m hy]
        have hx' : ((Function.update cs y
            ((cs y).setNodeToPort m pt ((cs y).getPortIndex pt + d'))) x).getNode pt
            = none := by
          rw [Function.update_noteq hxy]; exact hx
        rw [applyShift_of_getNode_none d pt x _ hx',
            applyShift_of_getNode_none d pt x cs hx,
            applyShift_of_getNode_some d' pt y cs m hy]
    · rcases hy : (cs y).getNode pt with _ | m
      · rw [applyShift_of_getNode_none d' pt y cs hy,
            applyShift_of_getNode_some d pt x cs n hx]
        have hy' : ((Function.update cs x
            ((cs x).setNodeToPort n pt ((cs x).getPortIndex pt + d))) y).getNode pt
            = none := by
          rw [Function.update_noteq (Ne.symm hxy)]; exact hy
        rw [applyShift_of_getNode_none d' pt y _ hy']
      · rw [applyShift_of_getNode_some d' pt y cs m hy,
            applyShift_of_getNode_some d pt x cs n hx]
        have hx' : ((Function.update cs y
            ((cs y).setNodeToPort m pt ((cs y).getPortIndex pt + d'))) x).getNode pt
            = some n := by
          rw [Function.update_noteq hxy]; exact hx
        have hy' : ((Function.update cs x
            ((cs x).setNodeToPort n pt ((cs x).getPortIndex pt + d))) y).getNode pt
            = some m := by
          rw [Function.update_noteq (Ne.symm hxy)]; exact hy
        rw [applyShift_of_getNode_some d pt x _ n hx',
            applyShift_of_getNode_some d' pt y _ m hy',
            Function.update_noteq hxy, Function.update_noteq (Ne.symm hxy),
            Function.update_comm hxy]

theorem applyShift_cancel (delta : Int) (pt : PortType) (x : ConnId)
    (cs : ConnId → Connection) :
    applyShift (-delta) pt x (applyShift delta pt x cs) = cs := by
  rcases h : (cs x).getNode pt with _ | n
  · rw [applyShift_of_getNode_none delta pt x cs h,
        applyShift_of_getNode_none (-delta) pt x cs h]
  · rw [applyShift_applyShift_same (-delta) delta pt x cs n h]
    have h1 : (cs x).getPortIndex pt + (delta + -delta) = (cs x).getPortIndex pt := by
      ring
    rw [h1, setNodeToPort_self (cs x) n pt h, Function.update_eq_self]

theorem applyShift_shiftConns (d d' : Int) (pt : PortType) (x : ConnId) :
    ∀ (cids : List ConnId) (cs : ConnId → Connection),
      applyShift d pt x (shiftConns d' pt cids cs) =
        shiftConns d' pt cids (applyShift d pt x cs) := by
  intro cids
  induction cids with
  | nil => intro cs; rfl
  | cons y ys ih =>
      intro cs
      rw [shiftConns_cons, shiftConns_cons, ih, applyShift_comm]

theorem shiftConns_cancel (delta : Int) (pt : PortType) :
    ∀ (cids : List ConnId) (cs : ConnId → Connection),
      shiftConns (-delta) pt cids (shiftConns delta pt cids cs) = cs := by
  intro cids
  induction cids with
  | nil => intro cs; rfl
  | cons x xs ih =>
      intro cs
      rw [shiftConns_cons, shiftConns_cons, applyShift_shiftConns,
          applyShift_cancel, ih]

/-! ## Claim theorems -/

/-- C2: for every port type and every index `i` with `0 ≤ i ≤ |entries|`,
`insertEntry(portType, i)` (as invoked by `onPortAdded`) inserts an empty
connection set at position `i`: the entries vector grows by exactly one, the
entry at `i` is empty, entries below `i` are unchanged and entries at or above
`i` move up by one; and every connection registered (once) at a former
position `j ≥ i` that attaches to a node on side `portType` has its stored
port index on that side bumped to its old index plus one. -/
theorem insertEntry_spec (w : World) (pt : PortType) (i : Nat)
    (hi : i ≤ (w.node.state.getEntries pt).length) :
    ((insertEntry w pt i).node.state.getEntries pt).length
        = (w.node.state.getEntries pt).length + 1
    ∧ ((insertEntry w pt i).node.state.getEntries pt).getD i [] = []
    ∧ (∀ j, j < i →
        ((insertEntry w pt i).node.state.getEntries pt).getD j []
          = (w.node.state.getEntries pt).getD j [])
    ∧ (∀ j, i ≤ j →
        ((insertEntry w pt i).node.state.getEntries pt).getD (j + 1) []
          = (w.node.state.getEntries pt).getD j [])
    ∧ (∀ c n j, i ≤ j → c ∈ (w.node.state.getEntries pt).getD j []
        → (((w.node.state.getEntries pt).drop i).flatten).count c = 1
        → (w.conns c).getNode pt = some n
        → ((insertEntry w pt i).conns c).getNode pt = some n
          ∧ ((insertEntry w pt i).conns c).getPortIndex pt
              = (w.conns c).getPortIndex pt + 1)
    ∧ onPortAdded w pt i = updateGraphics (insertEntry w pt i) := by
  have hnew : (insertEntry w pt i).node.state.getEntries pt
      = (w.node.state.getEntries pt).insertIdx i [] := by
    simp only [insertEntry, getEntries_setEntries]
  have hconns : (insertEntry w pt i).conns
      = shiftConns 1 pt (((w.node.state.getEntries pt).drop i).flatten) w.conns := by
    have h0 : (insertEntry w pt i).conns
        = shiftConns 1 pt
            ((((w.node.state.getEntries pt).insertIdx i []).drop (i + 1)).flatten)
            w.conns := rfl
    rw [h0, drop_insertIdx_succ i _ ([] : List ConnId) hi]
  refine ⟨?_, ?_, ?_, ?_, ?_, rfl⟩
  · rw [hnew]; exact List.length_insertIdx i _ hi
  · rw [hnew]; exact getD_insertIdx_self i _ _ _ hi
  · intro j hj; rw [hnew]; exact getD_insertIdx_lt i _ j _ _ hj
  · intro j hj; rw [hnew]; exact getD_insertIdx_succ i _ j _ _ hj hi
  · intro c n j _ _ hcount hn
    rw [hconns, shiftConns_apply_count_one 1 pt _ w.conns c n hcount hn]
    exact ⟨setNodeToPort_getNode .., setNodeToPort_getPortIndex ..⟩

/-- C3: for every port type and every in-bounds index `i`,
`eraseEntry(portType, i)` removes the connection set at position `i`: the
entries vector shrinks by exactly one, entries below `i` are unchanged and
entries above `i` move down by one; and every connection registered (once) at
a former position `j > i` that attaches to a node on side `portType` has its
stored port index on that side lowered to its old index minus one. -/
theorem eraseEntry_spec (w : World) (pt : PortType) (i : Nat)
    (hi : i < (w.node.state.getEntries pt).length) :
    ((eraseEntry w pt i).node.state.getEntries pt).length
        = (w.node.state.getEntries pt).length - 1
    ∧ (∀ j, j < i →
        ((eraseEntry w pt i).node.state.getEntries pt).getD j []
          = (w.node.state.getEntries pt).getD j [])
    ∧ (∀ j, i ≤ j →
        ((eraseEntry w pt i).node.state.getEntries pt).getD j []
          = (w.node.state.getEntries pt).getD (j + 1) [])
    ∧ (∀ c n j, i < j → c ∈ (w.node.state.getEntries pt).getD j []
        → (((w.node.state.getEntries pt).drop (i + 1)).flatten).count c = 1
        → (w.conns c).getNode pt = some n
        → ((eraseEntry w pt i).conns c).getNode pt = some n
          ∧ ((eraseEntry w pt i).conns c).getPortIndex pt
              = (w.conns c).getPortIndex pt - 1) := by
  have hnew : (eraseEntry w pt i).node.state.getEntries pt
      = (w.node.state.getEntries pt).eraseIdx i := by
    simp only [eraseEntry, getEntries_setEntries]
  have hconns : (eraseEntry w pt i).conns
      = shiftConns (-1) pt (((w.node.state.getEntries pt).drop (i + 1)).flatten)
          w.conns := by
    have h0 : (eraseEntry w pt i).conns
        = shiftConns (-1) pt
            ((((w.node.state.getEntries pt).eraseIdx i).drop i).flatten)
            w.conns := rfl
    rw [h0, drop_eraseIdx i _]
  refine ⟨?_, ?_, ?_, ?_⟩
  · rw [hnew, List.length_eraseIdx]; simp [hi]
  · intro j hj; rw [hnew]; exact getD_eraseIdx_lt i _ j _ hj
  · intro j hj; rw [hnew]; exact getD_eraseIdx_ge i _ j _ hj
  · intro c n j _ _ hcount hn
    rw [hconns, shiftConns_apply_count_one (-1) pt _ w.conns c n hcount hn]
    refine ⟨setNodeToPort_getNode .., ?_⟩
    rw [setNodeToPort_getPortIndex]
    ring

/-- C10: for every port type and every in-bounds index `i`,
`insertEntry(portType, i)` immediately followed by `eraseEntry(portType, i)`
restores the whole state: the entries vectors, every connection's stored
bookkeeping, and the event trace are exactly as before the pair of calls. -/
theorem insertEntry_eraseEntry_roundTrip (w : World) (pt : PortType) (i : Nat)
    (hi : i ≤ (w.node.state.getEntries pt).length) :
    eraseEntry (insertEntry w pt i) pt i = w := by
  obtain ⟨⟨u, st, geo, gr⟩, cs, evs⟩ := w
  obtain ⟨ie, oe, r, rpt, rdt⟩ := st
  cases pt with
  | inPort =>
      simp only [NodeState.getEntries] at hi
      simp only [insertEntry, eraseEntry, NodeState.getEntries,
        NodeState.setEntries, List.eraseIdx_insertIdx]
      rw [drop_insertIdx_succ i ie ([] : List ConnId) hi, shiftConns_cancel]
  | outPort =>
      simp only [NodeState.getEntries] at hi
      simp only [insertEntry, eraseEntry, NodeState.getEntries,
        NodeState.setEntries, List.eraseIdx_insertIdx]
      rw [drop_insertIdx_succ i oe ([] : List ConnId) hi, shiftConns_cancel]

theorem count_map_propagate (l : List ConnId) (c : ConnId) (d nd : Nat) :
    (l.map (fun x => Event.propagateToConn x nd)).count (Event.propagateToConn c d)
      = if d = nd then l.count c else 0 := by
  induction l with
  | nil => simp
  | cons x xs ih =>
      simp only [List.map_cons, List.count_cons, ih, beq_iff_eq,
        Event.propagateToConn.injEq]
      by_cases hd : d = nd <;> by_cases hc : c = x <;>
        simp [hd, hc] <;> omega

/-- C4: with the data model already reporting one input/output port fewer
than the entries vector holds, `onPortRemoved(portType, index)` emits
`connectionRemoved` exactly once for each connection registered at the
removed port index (in registration order), and then erases that entry from
the bookkeeping. -/
theorem onPortRemoved_spec (w : World) (dm : NodeDataModel) (pt : PortType)
    (i : Nat) (g : NodeGraphicsObject) (hg : w.node.graphics = some g)
    (hp : dm.nPorts pt + 1 = (w.node.state.getEntries pt).length) :
    (onPortRemoved w dm pt i).map World.events
      = some (w.events
          ++ ((w.node.state.getEntries pt).getD i []).map Event.connectionRemoved
          ++ updateGraphicsEvents)
    ∧ (onPortRemoved w dm pt i).map (fun x => x.node.state.getEntries pt)
      = some ((w.node.state.getEntries pt).eraseIdx i) := by
  obtain ⟨⟨u, st, geo, gr⟩, cs, evs⟩ := w
  have hg' : gr = some g := hg
  subst hg'
  have hiter : (st.getEntries pt).length - dm.nPorts pt = 1 := by
    have := hp
    simp only at this
    omega
  constructor
  · simp only [onPortRemoved, eraseEntry, updateGraphics, hiter,
      List.replicate_one, List.flatten_cons, List.flatten_nil, List.append_nil,
      Option.map_some]
    simp [List.append_assoc]
  · simp only [onPortRemoved, eraseEntry, updateGraphics, hiter,
      Option.map_some]
    simp [getEntries_setEntries]

/-- C5: `onDataUpdated(i)` changes no node state and no connection
bookkeeping; it appends to the trace exactly one `propagateData` event per
connection registered at `(PortType::Out, i)` — in fact exactly the map of
the registered connection list — and every appended event carries the data
model's `outData(i)`. -/
theorem onDataUpdated_spec (w : World) (dm : NodeDataModel) (i : Nat) :
    (onDataUpdated w dm i).node = w.node
    ∧ (onDataUpdated w dm i).conns = w.conns
    ∧ ((onDataUpdated w dm i).events.drop w.events.length
        = (w.node.state.connections PortType.outPort i).map
            (fun c => Event.propagateToConn c (dm.outData i)))
    ∧ (∀ c d, ((onDataUpdated w dm i).events.drop w.events.length).count
          (Event.propagateToConn c d)
        = if d = dm.outData i
          then (w.node.state.connections PortType.outPort i).count c
          else 0) := by
  refine ⟨rfl, rfl, ?_, ?_⟩
  · simp only [onDataUpdated]
    exact List.drop_left _ _
  · intro c d
    simp only [onDataUpdated]
    rw [List.drop_left, count_map_propagate]

/-- C1 (evaluation of the code at a failing input): moving input port 0 to
port 1 with one connection (7) registered at port 0 leaves every entry empty —
`onPortMoved` erases the old entry and inserts a fresh empty one without
re-registering the copied connections, so connection 7 disappears from the
bookkeeping and its stored port index still reads 0, not 1. -/
theorem onPortMoved_drops_connection :
    7 ∈ (movedWorld.node.state.getEntries PortType.inPort).getD 0 []
    ∧ (onPortMoved movedWorld PortType.inPort 0 1).map
        (fun x => x.node.state.getEntries PortType.inPort) = some [[], []]
    ∧ (onPortMoved movedWorld PortType.inPort 0 1).map
        (fun x => (x.conns 7).getPortIndex PortType.inPort) = some 0 :=
  ⟨by decide, rfl, rfl⟩

/-- C6: with the graphics object set, `save()` emits a JSON object whose keys
are exactly `"id"`, `"model"` and `"position"` (the latter holding exactly
`"x"` and `"y"`), and `restore()` applied to that object is a round trip on
identity and placement: `id()` returns the same uuid and the graphics
object's position is the same point. -/
theorem save_restore_spec (w : World) (dm : NodeDataModel)
    (g : NodeGraphicsObject) (hg : w.node.graphics = some g) :
    ((save w dm).map jKeys = some ["id", "model", "position"])
    ∧ ((save w dm).map (fun j => jKeys (jLookup j "position")) = some ["x", "y"])
    ∧ (((save w dm).bind (fun j => restore w j)).map (fun x => x.node.nodeId)
        = some w.node.nodeId)
    ∧ (((save w dm).bind (fun j => restore w j)).map
          (fun x => x.node.graphics.map NodeGraphicsObject.pos)
        = some (some g.pos)) := by
  obtain ⟨⟨u, st, geo, gr⟩, cs, evs⟩ := w
  have hg' : gr = some g := hg
  subst hg'
  refine ⟨rfl, rfl, rfl, rfl⟩

/-- C7: with the graphics object set, `propagateData(d, i)` forwards `d` to
the data model via `setInData(d, i)` and then resynchronizes the graphical
representation: it marks the geometry changed, recalculates the size,
repaints, and moves the attached connections — in exactly that order, with no
other state change. -/
theorem propagateData_spec (w : World) (d i : Nat)
    (g : NodeGraphicsObject) (hg : w.node.graphics = some g) :
    propagateData w d i
      = some { w with events := w.events
          ++ [Event.setInData d i, Event.setGeometryChanged,
              Event.recalculateSize, Event.graphicsUpdate,
              Event.moveConnections] } := by
  obtain ⟨⟨u, st, geo, gr⟩, cs, evs⟩ := w
  have hg' : gr = some g := hg
  subst hg'
  simp [propagateData, updateGraphics, updateGraphicsEvents]

/-- C8: with the graphics object set, `reactToPossibleConnection(pt, dt, sp)`
sets the node state's reaction to `REACTING` with exactly that port type and
data type and sets the geometry's dragging position to `sp` mapped through
the inverse of the graphics object's scene transform;
`resetReactionToConnection()` sets the reaction back to `NOT_REACTING`.
Neither operation changes the node's id or its connection entries. -/
theorem react_reset_spec (w : World) (pt : PortType) (dt : NodeDataType)
    (sp : Point) (g : NodeGraphicsObject) (hg : w.node.graphics = some g) :
    ((reactToPossibleConnection w pt dt sp).map
        (fun x => (x.node.state.reaction, x.node.state.reactingPortType,
                   x.node.state.reactingDataType))
      = some (ReactionState.REACTING, some pt, dt))
    ∧ ((reactToPossibleConnection w pt dt sp).map
        (fun x => x.node.geometry.draggingPos)
      = some (g.invSceneTransform sp))
    ∧ ((reactToPossibleConnection w pt dt sp).map
        (fun x => (x.node.uid, x.node.state.inEntries, x.node.state.outEntries))
      = some (w.node.uid, w.node.state.inEntries, w.node.state.outEntries))
    ∧ ((resetReactionToConnection w).map (fun x => x.node.state.reaction)
      = some ReactionState.NOT_REACTING)
    ∧ ((resetReactionToConnection w).map
        (fun x => (x.node.uid, x.node.state.inEntries, x.node.state.outEntries))
      = some (w.node.uid, w.node.state.inEntries, w.node.state.outEntries)) := by
  obtain ⟨⟨u, st, geo, gr⟩, cs, evs⟩ := w
  have hg' : gr = some g := hg
  subst hg'
  refine ⟨rfl, rfl, rfl, rfl, rfl⟩

/-- C9: the constructor leaves the graphics pointer null; every operation
that dereferences it (save, restore, reactToPossibleConnection,
resetReactionToConnection, updateGraphics, propagateData, and the
port-change handlers) is undefined (`none`) exactly when the graphics object
has not been set, and defined once `setGraphicsObject` has stored one. -/
theorem graphics_null_spec (uid : Nat) (dm : NodeDataModel) (w : World)
    (g : NodeGraphicsObject) :
    ((Node.mkNode uid dm).graphics = none)
    ∧ ((setGraphicsObject w g).node.graphics = some g)
    ∧ (w.node.graphics = none →
        save w dm = none
        ∧ (∀ j, restore w j = none)
        ∧ (∀ p dt sp, reactToPossibleConnection w p dt sp = none)
        ∧ resetReactionToConnection w = none
        ∧ updateGraphics w = none
        ∧ (∀ d i, propagateData w d i = none)
        ∧ (∀ p i, onPortAdded w p i = none)
        ∧ (∀ p a b, onPortMoved w p a b = none)
        ∧ (∀ p i, onPortRemoved w dm p i = none))
    ∧ (w.node.graphics.isSome →
        (save w dm).isSome
        ∧ (∀ j, (restore w j).isSome)
        ∧ (∀ p dt sp, (reactToPossibleConnection w p dt sp).isSome)
        ∧ (resetReactionToConnection w).isSome
        ∧ (updateGraphics w).isSome
        ∧ (∀ d i, (propagateData w d i).isSome)
        ∧ (∀ p i, (onPortAdded w p i).isSome)
        ∧ (∀ p a b, (onPortMoved w p a b).isSome)
        ∧ (∀ p i, (onPortRemoved w dm p i).isSome)) := by
  obtain ⟨⟨u, st, geo, gr⟩, cs, evs⟩ := w
  refine ⟨rfl, rfl, ?_, ?_⟩
  · intro hgr
    have hgr' : gr = none := hgr
    subst hgr'
    exact ⟨rfl, fun _ => rfl, fun _ _ _ => rfl, rfl, rfl, fun _ _ => rfl,
      fun _ _ => rfl, fun _ _ _ => rfl, fun _ _ => rfl⟩
  · intro hgr
    cases gr with
    | none => simp at hgr
    | some g' =>
        exact ⟨rfl, fun _ => rfl, fun _ _ _ => rfl, rfl, rfl, fun _ _ => rfl,
          fun _ _ => rfl, fun _ _ _ => rfl, fun _ _ => rfl⟩

/-! ## Witnesses: the theorems above applied at concrete inputs -/

theorem insertEntry_spec_witness :
    ((0 : Nat) ≤ (sampleWorld.node.state.getEntries PortType.inPort).length)
    ∧ ((insertEntry sampleWorld PortType.inPort 0).node.state.getEntries
        PortType.inPort).getD 0 [] = []
    ∧ ((insertEntry sampleWorld PortType.inPort 0).conns 4).getPortIndex
        PortType.inPort
      = (sampleWorld.conns 4).getPortIndex PortType.inPort + 1 :=
  ⟨by decide,
   (insertEntry_spec sampleWorld PortType.inPort 0 (by decide)).2.1,
   ((insertEntry_spec sampleWorld PortType.inPort 0 (by decide)).2.2.2.2.1 4 1 1
      (by decide) (by decide) (by decide) (by decide)).2⟩

theorem eraseEntry_spec_witness :
    (0 < (sampleWorld.node.state.getEntries PortType.inPort).length)
    ∧ ((eraseEntry sampleWorld PortType.inPort 0).node.state.getEntries
        PortType.inPort).length
      = (sampleWorld.node.state.getEntries PortType.inPort).length - 1
    ∧ ((eraseEntry sampleWorld PortType.inPort 0).conns 4).getPortIndex
        PortType.inPort
      = (sampleWorld.conns 4).getPortIndex PortType.inPort - 1 :=
  ⟨by decide,
   (eraseEntry_spec sampleWorld PortType.inPort 0 (by decide)).1,
   ((eraseEntry_spec sampleWorld PortType.inPort 0 (by decide)).2.2.2 4 1 1
      (by decide) (by decide) (by decide) (by decide)).2⟩

theorem onPortRemoved_spec_witness :
    (shrunkModel.nPorts PortType.inPort + 1
        = (sampleWorld.node.state.getEntries PortType.inPort).length)
    ∧ (onPortRemoved sampleWorld shrunkModel PortType.inPort 0).map World.events
      = some (sampleWorld.events
          ++ ((sampleWorld.node.state.getEntries PortType.inPort).getD 0 []).map
              Event.connectionRemoved
          ++ updateGraphicsEvents) :=
  ⟨by decide,
   (onPortRemoved_spec sampleWorld shrunkModel PortType.inPort 0 gObj rfl
      (by decide)).1⟩

theorem save_restore_spec_witness :
    sampleWorld.node.graphics = some gObj
    ∧ ((save sampleWorld sampleModel).map jKeys
        = some ["id", "model", "position"])
    ∧ (((save sampleWorld sampleModel).bind
          (fun j => restore sampleWorld j)).map (fun x => x.node.nodeId)
        = some sampleWorld.node.nodeId) :=
  ⟨rfl, (save_restore_spec sampleWorld sampleModel gObj rfl).1,
   (save_restore_spec sampleWorld sampleModel gObj rfl).2.2.1⟩

theorem propagateData_spec_witness :
    sampleWorld.node.graphics = some gObj
    ∧ propagateData sampleWorld 9 0
      = some { sampleWorld with events := sampleWorld.events
          ++ [Event.setInData 9 0, Event.setGeometryChanged,
              Event.recalculateSize, Event.graphicsUpdate,
              Event.moveConnections] } :=
  ⟨rfl, propagateData_spec sampleWorld 9 0 gObj rfl⟩

theorem react_reset_spec_witness :
    sampleWorld.node.graphics = some gObj
    ∧ ((reactToPossibleConnection sampleWorld PortType.inPort
          ⟨"int", "Int"⟩ ⟨4, 5⟩).map
        (fun x => (x.node.state.reaction, x.node.state.reactingPortType,
                   x.node.state.reactingDataType))
      = some (ReactionState.REACTING, some PortType.inPort, ⟨"int", "Int"⟩))
    ∧ ((resetReactionToConnection sampleWorld).map
        (fun x => x.node.state.reaction)
      = some ReactionState.NOT_REACTING) :=
  ⟨rfl,
   (react_reset_spec sampleWorld PortType.inPort ⟨"int", "Int"⟩ ⟨4, 5⟩ gObj rfl).1,
   (react_reset_spec sampleWorld PortType.inPort ⟨"int", "Int"⟩ ⟨4, 5⟩ gObj
      rfl).2.2.2.1⟩

theorem graphics_null_spec_witness :
    ((Node.mkNode 0 sampleModel).graphics = none)
    ∧ save (mkWorld 0 sampleModel sampleConns) sampleModel = none :=
  ⟨(graphics_null_spec 0 sampleModel (mkWorld 0 sampleModel sampleConns) gObj).1,
   ((graphics_null_spec 0 sampleModel (mkWorld 0 sampleModel sampleConns)
      gObj).2.2.1 rfl).1⟩

theorem insertEntry_eraseEntry_roundTrip_witness :
    ((0 : Nat) ≤ (sampleWorld.node.state.getEntries PortType.inPort).length)
    ∧ eraseEntry (insertEntry sampleWorld PortType.inPort 0) PortType.inPort 0
      = sampleWorld :=
  ⟨by decide,
   insertEntry_eraseEntry_roundTrip sampleWorld PortType.inPort 0 (by decide)⟩

end QtNodes
